import Mathlib

/-!
Verification of the debt-management backend's authentication and
authorization core against its design specification.

The Python sources are shallowly embedded: each handler or service
function becomes a total Lean function over explicit state (the record
store is a list of records, external dependencies such as the secret
provider, the JWT library and the password KDF are passed in as
function/`Except` parameters mirroring their call-site contracts).
Python falsiness of optional strings (`not x` is true for `None` and
`""`) is modelled explicitly by `strOptFalsy`.
-/

namespace DebtMgmt

/-- Python truthiness test `not x` for an optional string: true when the
value is absent or the empty string. -/
def strOptFalsy : Option String → Bool
  | none => true
  | some s => s = ""

/-- ASCII lowering of one character (`str.lower` acts per character;
the strings involved here are ASCII). -/
def lowerChar (c : Char) : Char :=
  if 65 ≤ c.toNat ∧ c.toNat ≤ 90 then Char.ofNat (c.toNat + 32) else c

/-- Python `s.lower()` over the characters of `s`. -/
def pyLower (s : String) : String := ⟨s.data.map lowerChar⟩

/-- Python `s.startswith(pre)`. -/
def pyStartsWith (s pre : String) : Bool :=
  s.data.take pre.data.length == pre.data

/-- Python `s[n:]`: drop the first `n` characters. -/
def pyDrop (s : String) (n : Nat) : String := ⟨s.data.drop n⟩

/-- Occurrence of `sub` as a contiguous run of `hay`. -/
def listHasSub (sub : List Char) : List Char → Bool
  | [] => sub == []
  | c :: rest => ((c :: rest).take sub.length == sub) || listHasSub sub rest

/-- Substring occurrence test (`sub in s` in Python). -/
def strContains (s sub : String) : Bool := listHasSub sub.data s.data

/-! ## Password hasher (`src/utils/security.py`, class `PasswordHasher`)

Bytes are modelled as `List Nat`.  The PBKDF2-HMAC-SHA256 derivation
(`hashlib.pbkdf2_hmac`) and the base64 codec (`base64.b64encode` /
`base64.b64decode`) are external library primitives, passed in as
function parameters; `kdf password salt` is the derived key for the
fixed iteration count. -/

/-- SALT_LENGTH class constant: 32 bytes. -/
def SALT_LENGTH : Nat := 32

/-- PasswordHasher.hash_password with the random salt made explicit:
`combined = salt + pbkdf2(password, salt)`, base64-encoded. -/
def hash_password (b64encode : List Nat → String)
    (kdf : String → List Nat → List Nat) (salt : List Nat)
    (password : String) : String :=
  b64encode (salt ++ kdf password salt)

/-- PasswordHasher.verify_password: decode the stored string, split it at
SALT_LENGTH into salt and stored key, re-derive and compare; any decode
failure yields `false` (the `except Exception: return False` branch). -/
def verify_password (b64decode : String → Option (List Nat))
    (kdf : String → List Nat → List Nat)
    (password stored_hash : String) : Bool :=
  match b64decode stored_hash with
  | none => false
  | some combined =>
      kdf password (combined.take SALT_LENGTH) = combined.drop SALT_LENGTH

/-! ## User model (`src/models/users.py`, class `UserBase`)

Pydantic `SecretStr` is modelled as `Option String` (absent or the raw
secret); `EmailStr` format validation is an external library concern and
is not re-modelled.  Timestamps are abstract instants (`Nat`). -/

/-- UserBase record: the validated user model. -/
structure UserBase where
  username : String
  email : String
  full_name : String
  password : Option String
  google_id : Option String
  oauth_provider : Option String
  avatar_url : Option String
  is_email_verified : Bool
  created_at : Option Nat
  updated_at : Option Nat
deriving Repr, DecidableEq

/-- Pydantic construction of `UserBase`: field constraints (username
3..50 chars, the no-spaces field validator, full_name 3..100 chars,
password min 8 chars when present) followed by the `validate_auth_method`
model validator, which rejects a user with neither a (truthy) password
nor a (truthy) google_id. -/
def mkUserBase (username email full_name : String)
    (password google_id oauth_provider avatar_url : Option String)
    (is_email_verified : Bool) (created_at updated_at : Option Nat) :
    Except String UserBase :=
  if username.length < 3 ∨ 50 < username.length then
    .error "username length out of range"
  else if username.contains ' ' then
    .error "Username must not contain spaces"
  else if full_name.length < 3 ∨ 100 < full_name.length then
    .error "full_name length out of range"
  else if password.elim false (fun p => decide (p.length < 8)) then
    .error "password too short"
  else if strOptFalsy password ∧ strOptFalsy google_id then
    .error "User must have either password or OAuth provider"
  else
    .ok { username := username, email := email, full_name := full_name,
          password := password, google_id := google_id,
          oauth_provider := oauth_provider, avatar_url := avatar_url,
          is_email_verified := is_email_verified,
          created_at := created_at, updated_at := updated_at }

/-- A user has a usable credential: a truthy password or a truthy
google_id (the property `validate_auth_method` enforces). -/
def has_credential (u : UserBase) : Bool :=
  !(strOptFalsy u.password && strOptFalsy u.google_id)

/-- Account-linking mutation from `google_oauth_callback` (src/handlers/auth.py):
set google_id, oauth_provider and avatar_url on the user found by email,
bump updated_at, without re-running model validation. -/
def linkGoogleAccount (u : UserBase) (google_id avatar_url : Option String)
    (now : Nat) : UserBase :=
  { u with google_id := google_id, oauth_provider := some "google",
           avatar_url := avatar_url, updated_at := some now }

/-- Table lookup `get_user` (src/services/dynamodb.py): the item keyed by
PK = USER#{username}, SK = USER#INFO; the store is the list of user
records, looked up by username. -/
def get_user (store : List UserBase) (username : String) : Option UserBase :=
  store.find? (fun u => u.username == username)

/-! ## HTTP responses (`src/utils/responses.py`)

A Lambda response is either a success envelope (`success_response`) with
its status code and data, or an error envelope (`error_response`) with
its status code and message. -/

/-- Handler response: success with data, or error with message. -/
inductive Resp (α : Type)
  | ok (status : Nat) (data : α)
  | err (status : Nat) (message : String)
deriving Repr, DecidableEq

/-- ASCII single-quote character, for response messages. -/
def squote : String := String.singleton (Char.ofNat 39)

/-! ## get_user handler (`src/handlers/users.py`) -/

/-- Response payload of the get_user handler:
`user.model_dump(exclude={"password"})` — every `UserBase` field except
the password. -/
structure UserPublicDump where
  username : String
  email : String
  full_name : String
  google_id : Option String
  oauth_provider : Option String
  avatar_url : Option String
  is_email_verified : Bool
  created_at : Option Nat
  updated_at : Option Nat
deriving Repr, DecidableEq

/-- The `model_dump(exclude={"password"})` projection. -/
def model_dump_no_password (u : UserBase) : UserPublicDump :=
  { username := u.username, email := u.email, full_name := u.full_name,
    google_id := u.google_id, oauth_provider := u.oauth_provider,
    avatar_url := u.avatar_url, is_email_verified := u.is_email_verified,
    created_at := u.created_at, updated_at := u.updated_at }

/-- The handler `get_user` (src/handlers/users.py): 403 unless the path
username equals the authenticated username, 404 when the user is absent,
otherwise 200 with the password-free dump. -/
def get_user_handler (store : List UserBase) (path_username auth_username : String) :
    Resp UserPublicDump :=
  if path_username ≠ auth_username then
    .err 403 "Access denied: You can only access your own user data"
  else
    match get_user store path_username with
    | none => .err 404 ("User " ++ squote ++ path_username ++ squote ++ " not found")
    | some u => .ok 200 (model_dump_no_password u)

/-- A user with its password removed; two users are indistinguishable to
password-free observers exactly when their `erasePassword` images agree. -/
def erasePassword (u : UserBase) : UserBase := { u with password := none }

/-! ## login handler (`src/handlers/auth.py`)

`sign` stands for the `get_secret("AWSCURRENT")` + `jwt.encode` step of
the success path (its failure is the except branch); `verify` is
`verify_password` from src/utils/security.py, abstracted over the codec
and KDF parameters. -/

/-- Success payload of login and of the OAuth callback: the token
envelope. -/
structure LoginData where
  token : String
  username : String
  expires_in : Nat
  avatar_url : Option String
  full_name : String
deriving Repr, DecidableEq

/-- The handler `login`: 401 for an unknown username, 400 with a
Google-sign-in message for a password-less (OAuth-only) account, 401 for
a failed password verification, 500 when token signing fails, otherwise
200 with the token envelope. -/
def login (sign : Except Unit String) (verify : String → String → Bool)
    (store : List UserBase) (username password : String) : Resp LoginData :=
  match get_user store username with
  | none => .err 401 "Invalid credentials"
  | some user =>
    match user.password with
    | none => .err 400 "This account uses Google sign-in. Please sign in with Google."
    | some stored =>
      if stored = "" then
        .err 400 "This account uses Google sign-in. Please sign in with Google."
      else if verify password stored = false then
        .err 401 "Invalid credentials"
      else
        match sign with
        | .error _ => .err 500 "Authentication service temporarily unavailable"
        | .ok token =>
            .ok 200 { token := token, username := username,
                      expires_in := 24 * 3600,
                      avatar_url := user.avatar_url, full_name := user.full_name }

/-! ## Authorization Gate (`src/authorizer.py`)

The JWT library is abstracted as a `decode` function returning the
outcome of `jwt.decode` for a token under a secret; the secret provider
(`src/services/secrets.py`) as the outcomes of the two
`get_secret_value` calls; the user table as a fallible lookup. -/

/-- Decoded JWT claims as used by the authorizer: the `username` claim,
absent when the key is missing from the payload. -/
structure JwtPayload where
  username : Option String
deriving Repr, DecidableEq

/-- Outcome of `jwt.decode(token, key=secret, algorithms=["HS256"])`:
a payload, an `ExpiredSignatureError`, or any other
`InvalidTokenError`. -/
inductive DecodeResult
  | ok (payload : JwtPayload)
  | expired
  | invalid
deriving Repr, DecidableEq

/-- get_all_secret_versions (src/services/secrets.py): the AWSCURRENT
version first when its fetch succeeds, then the AWSPREVIOUS version when
its fetch succeeds, it is truthy, and it is not already in the list. -/
def get_all_secret_versions (current previous : Except Unit String) :
    List String :=
  let secrets := match current with | .ok c => [c] | .error _ => []
  match previous with
  | .error _ => secrets
  | .ok p => if p ≠ "" ∧ p ∉ secrets then secrets ++ [p] else secrets

/-- The per-secret loop of `_validate_jwt_token`: try each secret in
order; a successful decode returns its payload at once, an
`ExpiredSignatureError` returns `None` at once, and any other
`InvalidTokenError` falls through to the next secret.  The second
component records the secrets actually offered to `jwt.decode`. -/
def try_secrets (decode : String → String → DecodeResult) (token : String) :
    List String → Option JwtPayload × List String
  | [] => (none, [])
  | s :: rest =>
    match decode token s with
    | .ok p => (some p, [s])
    | .expired => (none, [s])
    | .invalid =>
        ((try_secrets decode token rest).1, s :: (try_secrets decode token rest).2)

/-- `_validate_jwt_token`: run the loop over all available secret
versions; exhausting them with no match yields `None`. -/
def validate_jwt_token (decode : String → String → DecodeResult)
    (current previous : Except Unit String) (token : String) :
    Option JwtPayload :=
  (try_secrets decode token (get_all_secret_versions current previous)).1

/-- `_extract_token_from_event`: find the authorization header
case-insensitively (first match in header order), require a truthy
value with the literal prefix "Bearer " and a nonempty remainder. -/
def extract_token_from_event (headers : List (String × String)) :
    Option String :=
  match headers.find? (fun kv => pyLower kv.1 == "authorization") with
  | none => none
  | some kv =>
    if kv.2 = "" then none
    else if pyStartsWith kv.2 "Bearer " = false then none
    else
      let token := pyDrop kv.2 7
      if token = "" then none else some token

/-- `_validate_user_exists`: a store error or a missing record denies;
a found record must also carry the matching username. -/
def validate_user_exists (getUser : String → Except Unit (Option UserBase))
    (username : String) : Bool :=
  match getUser username with
  | .error _ => false
  | .ok none => false
  | .ok (some user) => user.username == username

/-- External dependencies of the authorizer lambda. -/
structure AuthEnv where
  decode : String → String → DecodeResult
  currentSecret : Except Unit String
  previousSecret : Except Unit String
  getUser : String → Except Unit (Option UserBase)

/-- API Gateway authorizer event: its headers mapping. -/
structure AuthEvent where
  headers : List (String × String)

/-- Authorizer response: `{"isAuthorized": False}` or
`{"isAuthorized": True}` with the username/userId/principalId context. -/
inductive AuthDecision
  | denied
  | allowed (username userId principalId : String)
deriving Repr, DecidableEq

/-- `lambda_handler` of src/authorizer.py: extract the token, validate it
against all secret versions, require a truthy username claim, require
the user to exist in the store; denial on every failure. -/
def authorizer_lambda_handler (env : AuthEnv) (event : AuthEvent) :
    AuthDecision :=
  match extract_token_from_event event.headers with
  | none => .denied
  | some token =>
    match validate_jwt_token env.decode env.currentSecret env.previousSecret token with
    | none => .denied
    | some payload =>
      match payload.username with
      | none => .denied
      | some username =>
        if username = "" then .denied
        else if validate_user_exists env.getUser username then
          .allowed username ("USER#" ++ username) username
        else .denied

/-! ## Debt read handler (`src/handlers/debts.py`, `src/services/dynamodb.py`)

Only the key fields participate in the handler's control flow; the
monetary and date fields of a debt are carried opaquely by the response
and are omitted from the record. -/

/-- Debt record: the owner username (recovered by `from_dynamodb_item`
from the partition key `USER#{username}`) and the debt id (from the
sort key `DEBT#{debt_id}`). -/
structure DebtRec where
  username : String
  debt_id : String
deriving Repr, DecidableEq

/-- Table lookup `get_debt`: the item keyed by PK = USER#{username},
SK = DEBT#{debt_id}; `to_dynamodb_item` derives PK from the debt's
username, so the lookup matches on both owner and id. -/
def table_get_debt (debts : List DebtRec) (username debt_id : String) :
    Option DebtRec :=
  debts.find? (fun d => d.username == username && d.debt_id == debt_id)

/-- The handler `get_debt`: look the debt up under the authenticated
username, 404 when absent, 403 when the found record's owner differs
from the authenticated username, else 200 with the debt data. -/
def get_debt_handler (debts : List DebtRec) (debt_id auth_username : String) :
    Resp DebtRec :=
  match table_get_debt debts auth_username debt_id with
  | none => .err 404 ("Debt " ++ squote ++ debt_id ++ squote ++ " not found")
  | some debt =>
    if debt.username ≠ auth_username then
      .err 403 "Access denied: You can only access your own debts"
    else .ok 200 debt

/-! ## Unique username generation (`src/handlers/auth.py`,
`_generate_unique_username`) -/

/-- The candidate sequence: `base`, then `base1`, `base2`, ...  (the
probe after k failures carries the counter value k). -/
def nameAt (base : String) : Nat → String
  | 0 => base
  | k + 1 => base ++ toString (k + 1)

/-- The probe loop of `_generate_unique_username`, with the Python
counter written as `k + 1` (k failed probes so far) and the remaining
allowance `f = 999 - k`: probe `nameAt base k`; free → done; taken with
the allowance exhausted (the counter would exceed 1000) → the
`ValueError`; otherwise advance to the next candidate. -/
def genFrom (userExists : String → Bool) (base : String) :
    Nat → Nat → Except String String
  | k, 0 =>
      if userExists (nameAt base k) then
        .error "Unable to generate unique username"
      else .ok (nameAt base k)
  | k, f + 1 =>
      if userExists (nameAt base k) then genFrom userExists base (k + 1) f
      else .ok (nameAt base k)

/-- `_generate_unique_username`: probes `suggested`, `suggested1`, ...,
`suggested999` and raises once the counter exceeds 1000. -/
def generate_unique_username (userExists : String → Bool)
    (suggested : String) : Except String String :=
  genFrom userExists suggested 0 999

/-! ## Google OAuth callback (`src/handlers/auth.py`,
`src/services/google_oauth.py`)

The code/token exchange with Google is external: the environment carries
its outcome (a decoded, signature-checked ID-token payload, or the
exception message).  Token signing (`get_secret` + `jwt.encode`) is the
same. -/

/-- Decoded Google ID-token payload (`user_info`) with the claims the
service reads; an absent key is `none`. -/
structure UserInfoG where
  sub : Option String
  email : Option String
  email_verified : Option Bool
  name : Option String
  picture : Option String
deriving Repr, DecidableEq

/-- Normalized profile produced by `extract_user_profile`. -/
structure GProfile where
  google_id : Option String
  email : String
  full_name : String
  avatar_url : Option String
  email_verified : Bool
  suggested_username : String
deriving Repr, DecidableEq

/-- `GoogleOAuthService.extract_user_profile`: reject an unverified (or
absent) email_verified claim with the ValueError, then normalize the
profile and derive the suggested username from the email local part
(strip dots and pluses, truncate to 50). An absent email raises when
`.split` is called on `None`. -/
def extract_user_profile (ui : UserInfoG) : Except String GProfile :=
  if ui.email_verified ≠ some true then
    .error "Google account email is not verified"
  else
    match ui.email with
    | none => .error "AttributeError: NoneType object has no attribute split"
    | some email =>
        .ok { google_id := ui.sub, email := email,
              full_name := ui.name.getD "",
              avatar_url := ui.picture,
              email_verified := true,
              suggested_username :=
                ((((email.splitOn "@").headD "").replace "." "").replace "+" "").take 50 }

/-- Table scan `get_user_by_google_id`: the first record whose google_id
equals the given id; an absent id matches nothing. -/
def get_user_by_google_id (store : List UserBase) (google_id : Option String) :
    Option UserBase :=
  match google_id with
  | none => none
  | some gid => store.find? (fun u => u.google_id == some gid)

/-- Table scan `get_user_by_email`: the first record with the email. -/
def get_user_by_email (store : List UserBase) (email : String) :
    Option UserBase :=
  store.find? (fun u => u.email == email)

/-- Table write `put_user` (also `update_user`): DynamoDB `put_item`
replaces the item with the same key (the username), else inserts. -/
def put_user (store : List UserBase) (user : UserBase) : List UserBase :=
  if store.any (fun u => u.username == user.username) then
    store.map (fun u => if u.username == user.username then user else u)
  else store ++ [user]

/-- The `except Exception` branch of the callback: lowercase the message
and pattern-match it into the user-facing error responses. -/
def classifyOAuthError (e : String) : Resp LoginData :=
  let m := pyLower e
  if strContains m "google oauth error:" then
    if strContains m "invalid_grant" then
      if strContains m "malformed auth code" then
        .err 400 "Invalid authorization code format. Please try signing in again."
      else if strContains m "authorization code used"
          || strContains m "code has already been used" then
        .err 400 "This authorization code has already been used. Please try signing in again."
      else
        .err 400 "Authorization code has expired or is invalid. Please try signing in again."
    else if strContains m "invalid_client" then
      .err 500 "OAuth client configuration error. Please check your Google Cloud Console client ID and secret."
    else if strContains m "redirect_uri_mismatch" then
      .err 500 "OAuth redirect URI mismatch. Please check your Google Cloud Console redirect URI settings."
    else
      .err 400 "Google OAuth error. Please try signing in again."
  else if strContains m "invalid_grant" then
    .err 400 "OAuth authorization code has expired or been used. Please try signing in again."
  else if strContains m "token exchange failed" then
    .err 400 "OAuth token exchange failed. Please try signing in again."
  else
    .err 500 ("OAuth authentication failed: " ++ e)

/-- External dependencies of the OAuth callback: the outcome of the
code/token exchange, the outcome of token signing, and the clock. -/
structure CallbackEnv where
  exchange : Except String UserInfoG
  sign : Except String String
  now : Nat

/-- The shared tail of the callback: sign a token for the resolved
username; a signing failure surfaces through the generic error
classifier (any store write has already happened by this point, as in
the source). -/
def finishLogin (env : CallbackEnv) (username : String) (profile : GProfile)
    (store : List UserBase) : Resp LoginData × List UserBase :=
  match env.sign with
  | .error e => (classifyOAuthError e, store)
  | .ok token =>
      (.ok 200 { token := token, username := username, expires_in := 24 * 3600,
                 avatar_url := profile.avatar_url, full_name := profile.full_name },
       store)

/-- `google_oauth_callback`: exchange the code, extract and gate the
profile, then resolve the account — by google_id, else by email (silent
linking), else create a fresh user through the validated constructor —
and finish with a signed token.  Every raised error is classified by the
except chain; a pydantic ValidationError yields the 400 response. -/
def google_oauth_callback (env : CallbackEnv) (store : List UserBase) :
    Resp LoginData × List UserBase :=
  match env.exchange with
  | .error e => (classifyOAuthError e, store)
  | .ok user_info =>
    match extract_user_profile user_info with
    | .error e => (classifyOAuthError e, store)
    | .ok profile =>
      match get_user_by_google_id store profile.google_id with
      | some existing_user => finishLogin env existing_user.username profile store
      | none =>
        match get_user_by_email store profile.email with
        | some existing_by_email =>
            let linked := linkGoogleAccount existing_by_email profile.google_id
              profile.avatar_url env.now
            finishLogin env linked.username profile (put_user store linked)
        | none =>
          match generate_unique_username (fun s => (get_user store s).isSome)
              profile.suggested_username with
          | .error e => (classifyOAuthError e, store)
          | .ok username =>
            match mkUserBase username profile.email profile.full_name none
                profile.google_id (some "google") profile.avatar_url
                profile.email_verified (some env.now) (some env.now) with
            | .error _ => (.err 400 "User validation failed", store)
            | .ok new_user => finishLogin env username profile (put_user store new_user)

/-! ## Concrete instances used by counterexamples and witnesses -/

/-- Carol: a concrete OAuth-only account (no password), stored. -/
def carolUser : UserBase :=
  { username := "carol", email := "carol@example.com", full_name := "Carol Jones",
    password := none, google_id := some "g123", oauth_provider := some "google",
    avatar_url := none, is_email_verified := true, created_at := none, updated_at := none }

/-- Gate environment with one known secret, one decodable token carrying
a username missing from the empty store. -/
def envWitness : AuthEnv :=
  { decode := fun t _ =>
      if t = "goodtoken" then .ok { username := some "ghost" } else .invalid,
    currentSecret := .ok "s1", previousSecret := .error (),
    getUser := fun _ => .ok none }

/-- Gate environment in which every external dependency fails. -/
def envAllFail : AuthEnv :=
  { decode := fun _ _ => .invalid,
    currentSecret := .error (), previousSecret := .error (),
    getUser := fun _ => .error () }

/-- A concrete unverified Google identity. -/
def uiUnverified : UserInfoG :=
  { sub := some "g1", email := some "eve@example.com",
    email_verified := some false, name := some "Eve Adams", picture := none }

end DebtMgmt

namespace DebtMgmt

/-- Exhausting the secret list with every decode failing as invalid
yields no payload. -/
theorem try_secrets_all_invalid (decode : String → String → DecodeResult)
    (token : String) :
    ∀ secrets, (∀ s ∈ secrets, decode token s = .invalid) →
      (try_secrets decode token secrets).1 = none := by
  intro secrets h
  induction secrets with
  | nil => rfl
  | cons s rest ih =>
      have hs : decode token s = .invalid := h s (by simp)
      simp [try_secrets, hs, ih (fun x hx => h x (by simp [hx]))]

/-- C6: for every password `p`, `verify(p, hash(p))` returns true
(given the documented base64 round-trip on the encoded blob and a
32-byte salt); a stored hash that fails to decode verifies `false`
rather than raising (`verify_password` is total by construction); and
any stored string on which `verify_password` returns `true` decodes to
a blob whose tail is exactly the key re-derived from its 32-byte head,
so a mutation that changes the decoded content never authenticates. -/
theorem password_hash_verify_roundtrip
    (b64encode : List Nat → String) (b64decode : String → Option (List Nat))
    (kdf : String → List Nat → List Nat) (salt : List Nat) (p : String)
    (hsalt : salt.length = SALT_LENGTH)
    (hround : b64decode (hash_password b64encode kdf salt p)
              = some (salt ++ kdf p salt)) :
    verify_password b64decode kdf p (hash_password b64encode kdf salt p) = true
    ∧ (∀ s, b64decode s = none → verify_password b64decode kdf p s = false)
    ∧ (∀ s, verify_password b64decode kdf p s = true →
        ∃ c, b64decode s = some c
          ∧ kdf p (c.take SALT_LENGTH) = c.drop SALT_LENGTH) := by
  refine ⟨?_, ?_, ?_⟩
  · simp only [verify_password, hround]
    rw [List.take_left' hsalt, List.drop_left' hsalt]
    simp
  · intro s hs
    simp [verify_password, hs]
  · intro s hs
    simp only [verify_password] at hs
    cases hdec : b64decode s with
    | none => simp [hdec] at hs
    | some c =>
        refine ⟨c, rfl, ?_⟩
        simp only [hdec, decide_eq_true_eq] at hs
        exact hs

/-- C9: construction of a `UserBase` succeeds only for users holding at
least one usable credential: a validated user always has a truthy
password or a truthy google_id; a construction attempt with neither is
rejected by `validate_auth_method`; and the account-linking write (the
one store write that bypasses re-validation) preserves the credential
when the user keeps a password or the linked google_id is truthy. -/
theorem user_credential_invariant :
    (∀ username email full_name password google_id oauth_provider avatar_url
        iev ca ua u,
        mkUserBase username email full_name password google_id oauth_provider
          avatar_url iev ca ua = .ok u → has_credential u = true)
    ∧ (∀ username email full_name password google_id oauth_provider avatar_url
        iev ca ua,
        strOptFalsy password = true → strOptFalsy google_id = true →
        ∀ u, mkUserBase username email full_name password google_id
          oauth_provider avatar_url iev ca ua ≠ .ok u)
    ∧ (∀ u google_id avatar_url now,
        strOptFalsy u.password = false ∨ strOptFalsy google_id = false →
        has_credential (linkGoogleAccount u google_id avatar_url now) = true) := by
  refine ⟨?_, ?_, ?_⟩
  · intro username email full_name password google_id oauth_provider avatar_url
      iev ca ua u h
    simp only [mkUserBase] at h
    split at h
    · simp at h
    · split at h
      · simp at h
      · split at h
        · simp at h
        · split at h
          · simp at h
          · split at h
            · simp at h
            · rename_i hcond
              injection h with h
              subst h
              simp only [has_credential, Bool.not_eq_eq_eq_not, Bool.not_true,
                Bool.and_eq_false_imp]
              intro hp
              rcases Bool.eq_false_or_eq_true (strOptFalsy google_id) with hg | hg
              · exact absurd ⟨hp, hg⟩ hcond
              · exact hg
  · intro username email full_name password google_id oauth_provider avatar_url
      iev ca ua hp hg u h
    simp only [mkUserBase] at h
    split at h
    · simp at h
    · split at h
      · simp at h
      · split at h
        · simp at h
        · split at h
          · simp at h
          · split at h
            · simp at h
            · rename_i hcond
              exact hcond ⟨hp, hg⟩
  · intro u google_id avatar_url now h
    simp only [linkGoogleAccount, has_credential]
    rcases h with h | h <;> simp [h]

/-- Witness for C9 at concrete users: a constructed OAuth-less,
google-less user is rejected, and linking keeps the credential. -/
theorem user_credential_invariant_witness :
    (∀ u, mkUserBase "bob" "bob@example.com" "Bob Jones" none none none none
        true none none ≠ .ok u)
    ∧ has_credential (linkGoogleAccount
        { username := "bob", email := "bob@example.com", full_name := "Bob Jones",
          password := some "hunter2pass", google_id := none, oauth_provider := none,
          avatar_url := none, is_email_verified := true,
          created_at := none, updated_at := none } (some "g9") none 5) = true :=
  ⟨user_credential_invariant.2.1 "bob" "bob@example.com" "Bob Jones" none none
      none none true none none rfl rfl,
   user_credential_invariant.2.2 _ (some "g9") none 5 (Or.inl rfl)⟩

/-- C10: when the path username equals the authenticated username and
the user exists, the get_user handler answers 200 with
`model_dump(exclude={"password"})` — a payload type with no password
field — and consequently two stored records that agree on everything
but the password produce identical responses for every request. -/
theorem get_user_response_password_free :
    (∀ store path auth u, path = auth → get_user store path = some u →
        get_user_handler store path auth = .ok 200 (model_dump_no_password u))
    ∧ (∀ u1 u2 : UserBase, erasePassword u1 = erasePassword u2 →
        ∀ path auth, get_user_handler [u1] path auth = get_user_handler [u2] path auth) := by
  constructor
  · intro store path auth u hpa hu
    subst hpa
    simp [get_user_handler, hu]
  · intro u1 u2 h path auth
    cases u1 with
    | mk a1 b1 c1 d1 e1 f1 g1 h1 i1 j1 =>
    cases u2 with
    | mk a2 b2 c2 d2 e2 f2 g2 h2 i2 j2 =>
    simp only [erasePassword, UserBase.mk.injEq] at h
    obtain ⟨ha, hb, hc, -, he, hf, hg2, hh, hi, hj⟩ := h
    subst ha; subst hb; subst hc; subst he; subst hf
    subst hg2; subst hh; subst hi; subst hj
    by_cases hcase : a1 = path
    · simp [get_user_handler, get_user, hcase, model_dump_no_password]
    · simp [get_user_handler, get_user, hcase]

/-- Witness for C10: two concrete users differing only in password hash
give the same response. -/
theorem get_user_response_password_free_witness :
    get_user_handler
      [{ username := "ann", email := "ann@example.com", full_name := "Ann Lee",
         password := some "hashAAAAAAA", google_id := none, oauth_provider := some "password",
         avatar_url := none, is_email_verified := true, created_at := none, updated_at := none }]
      "ann" "ann"
    = get_user_handler
      [{ username := "ann", email := "ann@example.com", full_name := "Ann Lee",
         password := some "hashBBBBBBB", google_id := none, oauth_provider := some "password",
         avatar_url := none, is_email_verified := true, created_at := none, updated_at := none }]
      "ann" "ann" :=
  get_user_response_password_free.2 _ _ rfl "ann" "ann"

/-- C3 counterexample: a login attempt against an OAuth-only account does
not produce the generic 401 "Invalid credentials" response — it produces
a 400 response with a Google-sign-in-specific message, so this failure
cause is distinguishable from the other two. -/
theorem login_oauth_only_distinct_counterexample :
    login (.ok "tok") (fun _ _ => false) [carolUser] "carol" "pw"
      = .err 400 "This account uses Google sign-in. Please sign in with Google."
    ∧ login (.ok "tok") (fun _ _ => false) [carolUser] "carol" "pw"
      ≠ .err 401 "Invalid credentials" :=
  ⟨rfl, by decide⟩

/-- C3 amended: an unknown username and a wrong password both yield the
same generic 401 "Invalid credentials" response and are indistinguishable
from each other, but an OAuth-only (password-less) account yields a
distinct 400 response with a Google-sign-in message. -/
theorem login_failure_responses (sign : Except Unit String)
    (verify : String → String → Bool) (store : List UserBase)
    (username password : String) :
    (get_user store username = none →
      login sign verify store username password = .err 401 "Invalid credentials")
    ∧ (∀ user stored, get_user store username = some user →
        user.password = some stored → stored ≠ "" →
        verify password stored = false →
        login sign verify store username password = .err 401 "Invalid credentials")
    ∧ (∀ user, get_user store username = some user →
        strOptFalsy user.password = true →
        login sign verify store username password
          = .err 400 "This account uses Google sign-in. Please sign in with Google.") := by
  refine ⟨?_, ?_, ?_⟩
  · intro h
    simp [login, h]
  · intro user stored hu hp hne hv
    simp [login, hu, hp, hne, hv]
  · intro user hu hf
    cases hp : user.password with
    | none => simp [login, hu, hp]
    | some s =>
        have hs : s = "" := by simpa [strOptFalsy, hp] using hf
        simp [login, hu, hp, hs]

/-- Witness for C3 amended at concrete inputs: empty store gives the
generic 401, and Carol the OAuth-only user gives the 400 message. -/
theorem login_failure_responses_witness :
    login (.ok "t") (fun _ _ => false) [] "nobody" "pw" = .err 401 "Invalid credentials"
    ∧ login (.ok "t") (fun _ _ => false) [carolUser] "carol" "pw"
      = .err 400 "This account uses Google sign-in. Please sign in with Google." :=
  ⟨(login_failure_responses (.ok "t") (fun _ _ => false) [] "nobody" "pw").1 rfl,
   (login_failure_responses (.ok "t") (fun _ _ => false) [carolUser] "carol" "pw").2.2
      carolUser rfl rfl⟩

/-- Witness for C6 at a concrete codec, KDF, salt and password. -/
theorem password_hash_verify_roundtrip_witness :
    verify_password
      (fun s => if s = "blob" then some (List.replicate 32 0 ++ [7, 7]) else none)
      (fun _ _ => [7, 7]) "pw"
      (hash_password (fun _ => "blob") (fun _ _ => [7, 7]) (List.replicate 32 0) "pw")
      = true := by
  have h := password_hash_verify_roundtrip (fun _ => "blob")
    (fun s => if s = "blob" then some (List.replicate 32 0 ++ [7, 7]) else none)
    (fun _ _ => [7, 7]) (List.replicate 32 0) "pw" (by decide) (by decide)
  exact h.1

/-- C2: the Authorization Gate denies each of: a request with no
authorization header under case-insensitive lookup; a header value not
starting with the literal "Bearer "; an empty token after the prefix; a
token every known secret rejects as invalid; and a validly decoded token
whose username is absent from the user store. -/
theorem authorization_gate_denials (env : AuthEnv) :
    (∀ headers, (∀ kv ∈ headers, pyLower kv.1 ≠ "authorization") →
        authorizer_lambda_handler env ⟨headers⟩ = .denied)
    ∧ (∀ headers k v,
        headers.find? (fun kv => pyLower kv.1 == "authorization") = some (k, v) →
        pyStartsWith v "Bearer " = false →
        authorizer_lambda_handler env ⟨headers⟩ = .denied)
    ∧ (∀ headers k,
        headers.find? (fun kv => pyLower kv.1 == "authorization")
          = some (k, "Bearer ") →
        authorizer_lambda_handler env ⟨headers⟩ = .denied)
    ∧ (∀ headers token,
        extract_token_from_event headers = some token →
        (∀ s ∈ get_all_secret_versions env.currentSecret env.previousSecret,
          env.decode token s = .invalid) →
        authorizer_lambda_handler env ⟨headers⟩ = .denied)
    ∧ (∀ headers token payload username,
        extract_token_from_event headers = some token →
        validate_jwt_token env.decode env.currentSecret env.previousSecret token
          = some payload →
        payload.username = some username → username ≠ "" →
        env.getUser username = .ok none →
        authorizer_lambda_handler env ⟨headers⟩ = .denied) := by
  refine ⟨?_, ?_, ?_, ?_, ?_⟩
  · intro headers hnone
    have hf : headers.find? (fun kv => pyLower kv.1 == "authorization") = none := by
      rw [List.find?_eq_none]
      intro kv hkv
      simpa using hnone kv hkv
    simp [authorizer_lambda_handler, extract_token_from_event, hf]
  · intro headers k v hf hsw
    by_cases hv : v = ""
    · simp [authorizer_lambda_handler, extract_token_from_event, hf, hv]
    · simp [authorizer_lambda_handler, extract_token_from_event, hf, hv, hsw]
  · intro headers k hf
    have h0 : ¬ ("Bearer " = "") := by decide
    have h1 : pyStartsWith "Bearer " "Bearer " = true := by decide
    have h2 : pyDrop "Bearer " 7 = "" := by decide
    simp [authorizer_lambda_handler, extract_token_from_event, hf, h0, h1, h2]
  · intro headers token hex hall
    have hv : validate_jwt_token env.decode env.currentSecret env.previousSecret
        token = none := by
      simp [validate_jwt_token, try_secrets_all_invalid _ _ _ hall]
    simp [authorizer_lambda_handler, hex, hv]
  · intro headers token payload username hex hval hu hne hstore
    simp [authorizer_lambda_handler, hex, hval, hu, hne,
      validate_user_exists, hstore]

/-- Witness for C2: the five denial scenarios at concrete requests. -/
theorem authorization_gate_denials_witness :
    authorizer_lambda_handler envWitness ⟨[("X-Other", "y")]⟩ = .denied
    ∧ authorizer_lambda_handler envWitness ⟨[("Authorization", "Basic abc")]⟩ = .denied
    ∧ authorizer_lambda_handler envWitness ⟨[("Authorization", "Bearer ")]⟩ = .denied
    ∧ authorizer_lambda_handler envWitness ⟨[("Authorization", "Bearer badtoken")]⟩ = .denied
    ∧ authorizer_lambda_handler envWitness ⟨[("Authorization", "Bearer goodtoken")]⟩ = .denied :=
  ⟨(authorization_gate_denials envWitness).1 [("X-Other", "y")] (by decide),
   (authorization_gate_denials envWitness).2.1 [("Authorization", "Basic abc")]
      "Authorization" "Basic abc" (by decide) (by decide),
   (authorization_gate_denials envWitness).2.2.1 [("Authorization", "Bearer ")]
      "Authorization" (by decide),
   (authorization_gate_denials envWitness).2.2.2.1 [("Authorization", "Bearer badtoken")]
      "badtoken" (by decide) (by decide),
   (authorization_gate_denials envWitness).2.2.2.2 [("Authorization", "Bearer goodtoken")]
      "goodtoken" ⟨some "ghost"⟩ "ghost" (by decide) (by decide) rfl (by decide) rfl⟩

/-- C5: the validator tries the known secrets in order — current first,
then previous (when truthy and distinct); an expired signature under a
tried secret ends validation at once with no payload, the remaining
secrets untouched; any other decode failure moves to the next secret;
and exhausting every secret with no match yields no payload. -/
theorem jwt_validation_secret_order (decode : String → String → DecodeResult)
    (token : String) :
    (∀ c p, p ≠ "" → p ≠ c →
        get_all_secret_versions (.ok c) (.ok p) = [c, p])
    ∧ (∀ s rest, decode token s = .expired →
        try_secrets decode token (s :: rest) = (none, [s]))
    ∧ (∀ s rest, decode token s = .invalid →
        try_secrets decode token (s :: rest)
          = ((try_secrets decode token rest).1,
             s :: (try_secrets decode token rest).2))
    ∧ (∀ secrets, (∀ s ∈ secrets, decode token s = .invalid) →
        (try_secrets decode token secrets).1 = none) := by
  refine ⟨?_, ?_, ?_, try_secrets_all_invalid decode token⟩
  · intro c p hp hpc
    simp [get_all_secret_versions, hp, hpc]
  · intro s rest h
    simp [try_secrets, h]
  · intro s rest h
    simp [try_secrets, h]

/-- Witness for C5 at a concrete decoder whose first secret reports an
expired signature. -/
theorem jwt_validation_secret_order_witness :
    get_all_secret_versions (.ok "s1") (.ok "s2") = ["s1", "s2"]
    ∧ try_secrets (fun _ s => if s = "exp" then DecodeResult.expired else .invalid)
        "t" ["exp", "s2"] = (none, ["exp"])
    ∧ (try_secrets (fun _ s => if s = "exp" then DecodeResult.expired else .invalid)
        "t" ["s1", "s2"]).1 = none :=
  ⟨(jwt_validation_secret_order (fun _ _ => .invalid) "t").1 "s1" "s2"
      (by decide) (by decide),
   (jwt_validation_secret_order
      (fun _ s => if s = "exp" then DecodeResult.expired else .invalid) "t").2.1
      "exp" ["s2"] (by decide),
   (jwt_validation_secret_order
      (fun _ s => if s = "exp" then DecodeResult.expired else .invalid) "t").2.2.2
      ["s1", "s2"] (by decide)⟩

/-- C7: the Authorization Gate is total and uniform: for every
environment and event the handler returns either the plain denial or an
allow with the username context, and the failure of each external
dependency (both secret fetches failing, or the user-store lookup
raising) yields the denial. -/
theorem authorization_gate_total (env : AuthEnv) (event : AuthEvent) :
    (authorizer_lambda_handler env event = .denied
      ∨ ∃ username, username ≠ ""
          ∧ authorizer_lambda_handler env event
            = .allowed username ("USER#" ++ username) username)
    ∧ (env.currentSecret = .error () → env.previousSecret = .error () →
        authorizer_lambda_handler env event = .denied)
    ∧ (∀ username, env.getUser username = .error () →
        validate_user_exists env.getUser username = false) := by
  refine ⟨?_, ?_, ?_⟩
  · cases hex : extract_token_from_event event.headers with
    | none => exact Or.inl (by simp [authorizer_lambda_handler, hex])
    | some token =>
      cases hval : validate_jwt_token env.decode env.currentSecret
          env.previousSecret token with
      | none => exact Or.inl (by simp [authorizer_lambda_handler, hex, hval])
      | some payload =>
        cases hu : payload.username with
        | none => exact Or.inl (by simp [authorizer_lambda_handler, hex, hval, hu])
        | some username =>
          by_cases hne : username = ""
          · exact Or.inl (by simp [authorizer_lambda_handler, hex, hval, hu, hne])
          · by_cases hve : validate_user_exists env.getUser username = true
            · exact Or.inr ⟨username, hne,
                by simp [authorizer_lambda_handler, hex, hval, hu, hne, hve]⟩
            · exact Or.inl
                (by simp [authorizer_lambda_handler, hex, hval, hu, hne, hve])
  · intro hc hp
    unfold authorizer_lambda_handler
    cases hex : extract_token_from_event event.headers with
    | none => rfl
    | some token =>
        have hv : validate_jwt_token env.decode env.currentSecret
            env.previousSecret token = none := by
          simp [validate_jwt_token, get_all_secret_versions, hc, hp, try_secrets]
        simp [hv]
  · intro username h
    simp [validate_user_exists, h]

/-- Witness for C7: with every dependency failing, a well-formed request
is denied. -/
theorem authorization_gate_total_witness :
    authorizer_lambda_handler envAllFail ⟨[("Authorization", "Bearer t")]⟩ = .denied :=
  (authorization_gate_total envAllFail ⟨[("Authorization", "Bearer t")]⟩).2.1 rfl rfl

/-- C4 counterexample: authenticated bob requesting the debt owned by
alice receives 404 Not Found, not the claimed 403 Forbidden — the
lookup is keyed by the authenticated username, so another user's debt
is invisible rather than forbidden. -/
theorem debt_cross_owner_read_counterexample :
    get_debt_handler [{ username := "alice", debt_id := "d1" }] "d1" "bob"
      = .err 404 ("Debt " ++ squote ++ "d1" ++ squote ++ " not found")
    ∧ get_debt_handler [{ username := "alice", debt_id := "d1" }] "d1" "bob"
      ≠ .err 403 "Access denied: You can only access your own debts" :=
  ⟨by decide, by decide⟩

/-- C4 amended: an authenticated user requesting a debt they do not own
(no debt with that id is keyed under their own username) receives 404
Not Found; the 403 Forbidden branch of the handler is unreachable,
because the looked-up record's owner always equals the lookup key. -/
theorem debt_cross_owner_read (debts : List DebtRec)
    (debt_id auth_username : String) :
    ((∀ d ∈ debts, ¬ (d.username = auth_username ∧ d.debt_id = debt_id)) →
      get_debt_handler debts debt_id auth_username
        = .err 404 ("Debt " ++ squote ++ debt_id ++ squote ++ " not found"))
    ∧ (∀ status msg, get_debt_handler debts debt_id auth_username
        = .err status msg → status ≠ 403) := by
  constructor
  · intro hno
    have hf : table_get_debt debts auth_username debt_id = none := by
      rw [table_get_debt, List.find?_eq_none]
      intro d hd
      simpa using hno d hd
    simp [get_debt_handler, hf]
  · intro status msg h
    cases hf : table_get_debt debts auth_username debt_id with
    | none =>
        simp only [get_debt_handler, hf] at h
        have : 404 = status := congrArg (fun r => match r with
          | Resp.err s _ => s
          | Resp.ok s _ => s) h
        omega
    | some d =>
        have hf2 : List.find?
            (fun d => d.username == auth_username && d.debt_id == debt_id) debts
            = some d := by
          simpa [table_get_debt] using hf
        have hp := List.find?_some hf2
        have hd : d.username = auth_username := by
          simp only [Bool.and_eq_true, beq_iff_eq] at hp
          exact hp.1
        simp [get_debt_handler, hf, hd] at h

/-- Witness for C4 amended: the concrete bob/alice scenario. -/
theorem debt_cross_owner_read_witness :
    get_debt_handler [{ username := "alice", debt_id := "d1" }] "d1" "bob"
      = .err 404 ("Debt " ++ squote ++ "d1" ++ squote ++ " not found") :=
  (debt_cross_owner_read [{ username := "alice", debt_id := "d1" }] "d1" "bob").1
    (by decide)

/-- When some candidate at index m (within the allowance window starting
at k) is free and all earlier candidates from k are taken, the probe
loop returns that candidate. -/
theorem genFrom_first_free (userExists : String → Bool) (base : String) :
    ∀ f k m, k ≤ m → m ≤ k + f →
      userExists (nameAt base m) = false →
      (∀ j, k ≤ j → j < m → userExists (nameAt base j) = true) →
      genFrom userExists base k f = .ok (nameAt base m) := by
  intro f
  induction f with
  | zero =>
      intro k m h1 h2 hfree _
      have hm : m = k := by omega
      subst hm
      simp [genFrom, hfree]
  | succ f ih =>
      intro k m h1 h2 hfree htaken
      by_cases hk : m = k
      · subst hk
        simp [genFrom, hfree]
      · have hk1 : k < m := lt_of_le_of_ne h1 (Ne.symm hk)
        have hkt : userExists (nameAt base k) = true := htaken k le_rfl hk1
        simp only [genFrom, hkt, if_true]
        exact ih (k + 1) m (by omega) (by omega) hfree
          (fun j hj1 hj2 => htaken j (by omega) hj2)

/-- When every candidate in the allowance window is taken, the probe
loop raises the generation error. -/
theorem genFrom_exhausted (userExists : String → Bool) (base : String) :
    ∀ f k, (∀ j, k ≤ j → j ≤ k + f → userExists (nameAt base j) = true) →
      genFrom userExists base k f = .error "Unable to generate unique username" := by
  intro f
  induction f with
  | zero =>
      intro k h
      simp [genFrom, h k le_rfl (by omega)]
  | succ f ih =>
      intro k h
      simp only [genFrom, h k le_rfl (by omega), if_true]
      exact ih (k + 1) (fun j hj1 hj2 => h j (by omega) (by omega))

/-- C8: username generation returns the first candidate of the sequence
base, base1, base2, ... absent from the store — concretely, with alice
and alice1 taken it yields alice2 — and raises the generation error
instead of looping once the bounded retry count is exhausted (all
candidates up to base999 taken). -/
theorem unique_username_generation :
    (generate_unique_username (fun s => s == "alice" || s == "alice1") "alice"
      = .ok "alice2")
    ∧ (∀ userExists base m, m ≤ 999 →
        userExists (nameAt base m) = false →
        (∀ j, j < m → userExists (nameAt base j) = true) →
        generate_unique_username userExists base = .ok (nameAt base m))
    ∧ (∀ userExists base,
        (∀ j, j ≤ 999 → userExists (nameAt base j) = true) →
        generate_unique_username userExists base
          = .error "Unable to generate unique username") := by
  refine ⟨rfl, ?_, ?_⟩
  · intro userExists base m hm hfree htaken
    exact genFrom_first_free userExists base 999 0 m (by omega) (by omega) hfree
      (fun j _ hj2 => htaken j hj2)
  · intro userExists base h
    exact genFrom_exhausted userExists base 999 0
      (fun j _ hj2 => h j (by omega))

/-- Witness for C8: with an empty store the suggested name itself is
returned. -/
theorem unique_username_generation_witness :
    generate_unique_username (fun _ => false) "zed" = .ok (nameAt "zed" 0) :=
  unique_username_generation.2.1 (fun _ => false) "zed" 0 (by omega) rfl
    (fun j hj => absurd hj (by omega))

/-- C1: when the exchanged external identity reports `email_verified`
false or absent, the callback rejects before any account lookup,
linking or creation: the user store is returned unchanged, the response
is the error built from the "email is not verified" ValueError, and the
response is the same whatever the store contents — no lookup result
influences it. -/
theorem oauth_unverified_email_rejected (env : CallbackEnv)
    (store : List UserBase) (ui : UserInfoG)
    (hx : env.exchange = .ok ui) (hv : ui.email_verified ≠ some true) :
    (google_oauth_callback env store).2 = store
    ∧ (google_oauth_callback env store).1
        = .err 500 "OAuth authentication failed: Google account email is not verified"
    ∧ ∀ store2, (google_oauth_callback env store2).1
        = (google_oauth_callback env store).1 := by
  have hcls : classifyOAuthError "Google account email is not verified"
      = .err 500 "OAuth authentication failed: Google account email is not verified" := by
    decide
  have hext : extract_user_profile ui = .error "Google account email is not verified" := by
    simp [extract_user_profile, hv]
  refine ⟨?_, ?_, ?_⟩ <;> simp [google_oauth_callback, hx, hext, hcls]

/-- Witness for C1: the concrete unverified identity against the empty
store. -/
theorem oauth_unverified_email_rejected_witness :
    (google_oauth_callback ⟨.ok uiUnverified, .ok "tok", 0⟩ []).2 = ([] : List UserBase) :=
  (oauth_unverified_email_rejected ⟨.ok uiUnverified, .ok "tok", 0⟩ [] uiUnverified
    rfl (by decide)).1

end DebtMgmt
